import Mathlib

/-!
Verification of the beartype error-cause "sleuth" subsystem
(`beartype/_util/hint/pep/error/_utilhintpeperrorsleuth.py`).

The embedding models Python objects by the inductive type `PyVal`, a
`CauseSleuth` instance by a structure holding its five instance variables
plus a list of dynamically added attributes (Python objects accept
`setattr` with arbitrary names), and the method `get_cause_or_none` in
state-passing style: the pair returned carries both the method result
(`Except` models raising) and the post-call object state.

Collaborators imported by the source file but absent from this excerpt
(`is_hint_pep`, `get_hint_pep_typing_attr`, the `_TYPING_ATTR_TO_GETTER`
table, the per-category getter functions, and the class
`_BeartypeUtilRaisePepException`) are modelled from the specification;
every such definition says so in its doc comment.
-/

/-- Model of Python runtime values, carrying just the structure the sleuth
subsystem inspects: `None`, integers, strings, plain classes (`type`
instances), argumentless `typing` attributes, PEP-compliant composite hints
(a `typing` attribute name together with the ordered child hints), and
lists (the piths sequence explainers iterate). -/
inductive PyVal : Type
  | vnone : PyVal
  | vint : Int → PyVal
  | vstr : String → PyVal
  | vtype : String → PyVal
  | vattr : String → PyVal
  | vhint : String → List PyVal → PyVal
  | vlist : List PyVal → PyVal

/-- Python `v is None`: true exactly for `None`. -/
def pyIsNone : PyVal → Bool
  | .vnone => true
  | _ => false

/-- Python `isinstance(v, type)`: true exactly for plain classes. -/
def isType : PyVal → Bool
  | .vtype _ => true
  | _ => false

/-- Python `isinstance(v, str)`: true exactly for strings. -/
def isStr : PyVal → Bool
  | .vstr _ => true
  | _ => false

/-- The Python class of a value, by name (models `type(v).__name__`). -/
def typeName : PyVal → String
  | .vnone => "NoneType"
  | .vint _ => "int"
  | .vstr _ => "str"
  | .vtype _ => "type"
  | .vattr _ => "typing-attribute"
  | .vhint _ _ => "typing-hint"
  | .vlist _ => "list"

/-- Model of Python `str(v)`, as interpolated by f-strings. -/
def pyStr : PyVal → String
  | .vnone => "None"
  | .vint n => toString n
  | .vstr s => s
  | .vtype n => "<class " ++ n ++ ">"
  | .vattr n => "typing." ++ n
  | .vhint n _ => "typing." ++ n ++ "[...]"
  | .vlist _ => "[...]"

/-- Model of Python `repr(v)`. -/
def pyRepr : PyVal → String
  | .vnone => "None"
  | .vint n => toString n
  | .vstr s => "\x27" ++ s ++ "\x27"
  | .vtype n => "<class " ++ n ++ ">"
  | .vattr n => "typing." ++ n
  | .vhint n _ => "typing." ++ n ++ "[...]"
  | .vlist _ => "[...]"

/-- Modelled from the spec: `beartype._util.hint.pep.utilhintpeptest.is_hint_pep`
is imported by the source but missing from this excerpt. Per the spec, the
Hint Classifier recognizes exactly the composite PEP-compliant hint forms;
in this embedding those are the `vhint` values. -/
def is_hint_pep : PyVal → Bool
  | .vhint _ _ => true
  | _ => false

/-- Modelled from the spec: `beartype._util.hint.pep.utilhintpepget.get_hint_pep_typing_attr`
is imported by the source but missing from this excerpt. Per the spec it
returns the argumentless `typing` attribute identifying a PEP-compliant
hint (its category identifier). -/
def get_hint_pep_typing_attr : PyVal → PyVal
  | .vhint a _ => .vattr a
  | _ => .vnone

/-- The classification expression of `CauseSleuth.__init__` (source lines
76-80): the `typing` attribute identifying the hint if it is PEP-compliant,
else `None`. -/
def computeHintAttr (hint : PyVal) : PyVal :=
  if is_hint_pep hint then get_hint_pep_typing_attr hint else .vnone

/-- A `CauseSleuth` object: the five instance variables set by `__init__`,
plus the attributes later added dynamically by `setattr` under names that
are not one of the five (Python instances carry an open `__dict__`). -/
structure CauseSleuth : Type where
  pith : PyVal
  hint : PyVal
  cause_indent : PyVal
  exception_label : PyVal
  hint_attr : PyVal
  extra : List (String × PyVal)

/-- Python `setattr(self, name, value)` on a `CauseSleuth` instance:
overwrites the instance variable of that name, or records a new attribute
of that name otherwise. -/
def CauseSleuth.setattr (s : CauseSleuth) (name : String) (value : PyVal) :
    CauseSleuth :=
  if name = "pith" then { s with pith := value }
  else if name = "hint" then { s with hint := value }
  else if name = "cause_indent" then { s with cause_indent := value }
  else if name = "exception_label" then { s with exception_label := value }
  else if name = "hint_attr" then { s with hint_attr := value }
  else { s with extra := (name, value) :: s.extra }

/-- Python `getattr(self, name)` on a `CauseSleuth` instance, `none` when
the attribute does not exist. -/
def CauseSleuth.getattr (s : CauseSleuth) (name : String) : Option PyVal :=
  if name = "pith" then some s.pith
  else if name = "hint" then some s.hint
  else if name = "cause_indent" then some s.cause_indent
  else if name = "exception_label" then some s.exception_label
  else if name = "hint_attr" then some s.hint_attr
  else s.extra.lookup name

/-- `CauseSleuth.__init__` (source lines 53-80): asserts that
`cause_indent` and `exception_label` are strings (an `AssertionError`,
modelled as `Except.error` carrying the assertion message), classifies all
passed parameters, then derives `hint_attr` from the current hint. -/
def CauseSleuth.init (pith hint cause_indent exception_label : PyVal) :
    Except String CauseSleuth :=
  if !(isStr cause_indent) then
    .error (pyRepr cause_indent ++ " not string.")
  else if !(isStr exception_label) then
    .error (pyRepr exception_label ++ " not string.")
  else
    .ok
      { pith := pith
        hint := hint
        cause_indent := cause_indent
        exception_label := exception_label
        hint_attr := computeHintAttr hint
        extra := [] }

/-- `CauseSleuth.permute` (source lines 188-228): a shallow copy of the
object (`copy.copy`, which in this embedding of immutable-by-convention
field values is the structure value itself) on which each passed keyword
argument overwrites the attribute of the same name, in order. The parent
value is not modified: the copy alone is the target of every `setattr`. -/
def CauseSleuth.permute (s : CauseSleuth) (kwargs : List (String × PyVal)) :
    CauseSleuth :=
  kwargs.foldl (fun copy kv => copy.setattr kv.1 kv.2) s

/-- Modelled from the spec: the class `_BeartypeUtilRaisePepException`
imported from `beartype.roar` is missing from this excerpt of `roar.py`.
Per the spec it is the single distinguished "unsupported hint" error kind;
it carries the formatted message. -/
structure PepException : Type where
  msg : String

/-- The message of the exception raised at source lines 152-156 for a hint
that is neither PEP-compliant nor a plain class. -/
def unsupportedNonPepError (s : CauseSleuth) : PepException :=
  ⟨pyStr s.exception_label ++ " type hint " ++ pyRepr s.hint ++
    " unsupported (i.e., neither PEP-compliant nor non-\"typing\" class)."⟩

/-- The message of the exception raised at source lines 174-179 for a
PEP-compliant hint whose category has no registered getter. -/
def unsupportedPepError (s : CauseSleuth) : PepException :=
  ⟨pyStr s.exception_label ++ " PEP type hint " ++ pyRepr s.hint ++
    " unsupported (i.e., no \"get_cause_or_none_\"-prefixed getter " ++
    "function defined for this category of hint)."⟩

/-- `CauseSleuth.get_cause_or_none` (source lines 83-185) in state-passing
style, parametrized by the two collaborators the source imports locally:
`get_cause_or_none_type` (the getter for non-`typing` classes) and
`_TYPING_ATTR_TO_GETTER` (the category-to-getter table, whose `.get` with
default `None` is modelled by an `Option`-valued table). Getters have the
spec contract `explain(sleuth) -> Optional[string]` and are pure. The
first component is the method result (`Except` models raising); the second
is the object state after the call — the method body only reads `self`, so
every branch returns `self` unchanged. -/
def CauseSleuth.get_cause_or_none_run
    (typeGetter : CauseSleuth → Option String)
    (table : PyVal → Option (CauseSleuth → Option String))
    (self : CauseSleuth) :
    Except PepException (Option String) × CauseSleuth :=
  if pyIsNone self.hint_attr then
    if !(isType self.hint) then
      (.error (unsupportedNonPepError self), self)
    else
      (.ok (typeGetter self), self)
  else
    match table self.hint_attr with
    | none => (.error (unsupportedPepError self), self)
    | some getter => (.ok (getter self), self)

/-- The value returned (or exception raised) by
`CauseSleuth.get_cause_or_none`. -/
def CauseSleuth.get_cause_or_none
    (typeGetter : CauseSleuth → Option String)
    (table : PyVal → Option (CauseSleuth → Option String))
    (self : CauseSleuth) : Except PepException (Option String) :=
  (self.get_cause_or_none_run typeGetter table).1

/-- Whether an `Except` computation raised. -/
def exceptIsError : Except PepException (Option String) → Bool
  | .error _ => true
  | .ok _ => false

/-- Whether an `Except String CauseSleuth` computation succeeded. -/
def initIsOk : Except String CauseSleuth → Bool
  | .error _ => false
  | .ok _ => true

/-- Modelled from the spec: the terminal plain-class getter
`beartype._util.hint.pep.error._utilhintpeperrortype.get_cause_or_none_type`
is imported by the source but missing from this excerpt. Per the spec it
performs no further recursion and produces a message naming the pith's
actual runtime type versus the expected class, or `None` if the type
matches. -/
def get_cause_or_none_type (s : CauseSleuth) : Option String :=
  match s.hint with
  | .vtype name =>
    if typeName s.pith = name then none
    else
      some (pyStr s.cause_indent ++ "value " ++ pyRepr s.pith ++
        " not instance of " ++ name)
  | _ => some (pyRepr s.hint ++ " not a class")

mutual

/-- Nesting depth of a hint value: 1 for a terminal hint, one more than the
deepest child for a composite `typing` hint. -/
def hintDepth : PyVal → Nat
  | .vhint _ args => 1 + hintDepthList args
  | _ => 1

/-- Deepest nesting depth among a list of child hints. -/
def hintDepthList : List PyVal → Nat
  | [] => 0
  | a :: rest => max (hintDepth a) (hintDepthList rest)

end

/-- Scan the child contexts a composite-hint explainer derives, in order:
propagate fuel exhaustion (`none`) and raised exceptions, return the first
non-`None` cause, and report `.ok none` when every child satisfies its
hint. This is the first-failing-child iteration the spec prescribes for
union and sequence explainers. -/
def scanFirst
    (recurse : CauseSleuth → Option (Except PepException (Option String))) :
    List CauseSleuth → Option (Except PepException (Option String))
  | [] => some (.ok none)
  | c :: cs =>
    match recurse c with
    | none => none
    | some (.error e) => some (.error e)
    | some (.ok (some cause)) => some (.ok (some cause))
    | some (.ok none) => scanFirst recurse cs

/-- Modelled from the spec: the per-category explainers
(`_utilhintpeperrorunion.get_cause_or_none_union`,
`_utilhintpeperrorsequence.get_cause_or_none_sequence_standard`, ...) are
missing from this excerpt. This is the full recursive traversal they form
together with the sleuth's dispatch: the outer `Nat` is fuel, and a `none`
result means the fuel ran out before the traversal finished. A union
explainer permutes `hint` to each member in declaration order; a standard
sequence explainer permutes `pith` to each element and `hint` to the
element hint, in index order; both recurse through the permuted child
sleuth and keep the first non-`None` cause. Every other composite category
has no registered explainer here, reproducing the sleuth's
missing-getter exception; non-composite hints take the plain-class path of
the sleuth's dispatch. -/
def get_cause_rec :
    Nat → CauseSleuth → Option (Except PepException (Option String))
  | 0, _ => none
  | Nat.succ n, s =>
    match s.hint with
    | .vhint tag args =>
      if tag = "Union" then
        scanFirst (get_cause_rec n)
          (args.map (fun m => s.permute [("hint", m)]))
      else if tag = "List" then
        match args with
        | [elemHint] =>
          match s.pith with
          | .vlist elems =>
            scanFirst (get_cause_rec n)
              (elems.map (fun e => s.permute [("pith", e), ("hint", elemHint)]))
          | _ =>
            some (.ok (some (pyStr s.cause_indent ++ "value " ++
              pyRepr s.pith ++ " not instance of list")))
        | _ => some (.error (unsupportedPepError s))
      else some (.error (unsupportedPepError s))
    | _ =>
      if !(isType s.hint) then some (.error (unsupportedNonPepError s))
      else some (.ok (get_cause_or_none_type s))

/-- A concrete sleuth context used to instantiate theorems with
hypotheses: the value `CauseSleuth.__init__` builds for an integer pith
checked against the plain class `int`. -/
def sampleSleuth : CauseSleuth :=
  { pith := .vint 1
    hint := .vtype ("int")
    cause_indent := .vstr ("")
    exception_label := .vstr ("f")
    hint_attr := .vnone
    extra := [] }

theorem permute_cons (s : CauseSleuth) (kv : String × PyVal)
    (rest : List (String × PyVal)) :
    s.permute (kv :: rest) = (s.setattr kv.1 kv.2).permute rest := rfl

theorem setattr_hint_of_ne (s : CauseSleuth) (n : String) (v : PyVal)
    (h : n ≠ "hint") : (s.setattr n v).hint = s.hint := by
  unfold CauseSleuth.setattr
  split_ifs <;> simp_all

theorem setattr_hint_attr_of_ne (s : CauseSleuth) (n : String) (v : PyVal)
    (h : n ≠ "hint_attr") : (s.setattr n v).hint_attr = s.hint_attr := by
  unfold CauseSleuth.setattr
  split_ifs <;> simp_all

theorem permute_hint_of_ne (s : CauseSleuth) (kwargs : List (String × PyVal))
    (h : ∀ kv ∈ kwargs, kv.1 ≠ "hint") : (s.permute kwargs).hint = s.hint := by
  induction kwargs generalizing s with
  | nil => rfl
  | cons kv rest ih =>
    rw [permute_cons, ih _ (fun x hx => h x (List.mem_cons_of_mem kv hx)),
      setattr_hint_of_ne s kv.1 kv.2 (h kv (List.mem_cons_self kv rest))]

theorem permute_hint_attr_of_ne (s : CauseSleuth)
    (kwargs : List (String × PyVal))
    (h : ∀ kv ∈ kwargs, kv.1 ≠ "hint_attr") :
    (s.permute kwargs).hint_attr = s.hint_attr := by
  induction kwargs generalizing s with
  | nil => rfl
  | cons kv rest ih =>
    rw [permute_cons, ih _ (fun x hx => h x (List.mem_cons_of_mem kv hx)),
      setattr_hint_attr_of_ne s kv.1 kv.2 (h kv (List.mem_cons_self kv rest))]

/-- C3: for every sleuth and every child value, `permute(pith=child)`
returns a context whose `pith` equals the child while `hint`, `hint_attr`,
`cause_indent` and `exception_label` (and any dynamically added
attributes) are carried over unchanged from the parent. The parent is not
modified: in this state-passing embedding `permute` maps the parent value
to a fresh copy and the parent value itself is never rebound. -/
theorem permute_pith_carries_other_fields (s : CauseSleuth) (child : PyVal) :
    (s.permute [("pith", child)]).pith = child ∧
    (s.permute [("pith", child)]).hint = s.hint ∧
    (s.permute [("pith", child)]).hint_attr = s.hint_attr ∧
    (s.permute [("pith", child)]).cause_indent = s.cause_indent ∧
    (s.permute [("pith", child)]).exception_label = s.exception_label ∧
    (s.permute [("pith", child)]).extra = s.extra :=
  ⟨rfl, rfl, rfl, rfl, rfl, rfl⟩

/-- C7: construction succeeds exactly when the indentation and the error
label are strings; the pith and the hint are arbitrary — in particular a
hint of unsupported category is accepted, since the classification is
derived inside the constructor, not asserted. -/
theorem init_succeeds_iff_strings
    (pith hint cause_indent exception_label : PyVal) :
    initIsOk (CauseSleuth.init pith hint cause_indent exception_label)
        = true ↔
      (isStr cause_indent = true ∧ isStr exception_label = true) := by
  cases hci : isStr cause_indent <;> cases hel : isStr exception_label <;>
    simp [CauseSleuth.init, initIsOk, hci, hel]

/-- C9: `permute` re-applies none of the constructor's assertions:
overriding `cause_indent` or `exception_label` with a non-string value
succeeds and the copy carries that value, while `__init__` rejects the
same value in either position. -/
theorem permute_bypasses_init_validation (s : CauseSleuth) (v : PyVal)
    (hv : isStr v = false) :
    (s.permute [("cause_indent", v)]).cause_indent = v ∧
    (s.permute [("exception_label", v)]).exception_label = v ∧
    (∀ p h el, initIsOk (CauseSleuth.init p h v el) = false) ∧
    (∀ p h ci, initIsOk (CauseSleuth.init p h ci v) = false) := by
  refine ⟨rfl, rfl, ?_, ?_⟩
  · intro p h el
    simp [CauseSleuth.init, initIsOk, hv]
  · intro p h ci
    cases hci : isStr ci <;> simp [CauseSleuth.init, initIsOk, hv, hci]

/-- Witness for C9 at the concrete non-string value `7`. -/
theorem permute_bypasses_init_validation_witness :
    (sampleSleuth.permute [("cause_indent", PyVal.vint 7)]).cause_indent
        = PyVal.vint 7 ∧
    (sampleSleuth.permute
        [("exception_label", PyVal.vint 7)]).exception_label
        = PyVal.vint 7 ∧
    (∀ p h el, initIsOk (CauseSleuth.init p h (PyVal.vint 7) el) = false) ∧
    (∀ p h ci, initIsOk (CauseSleuth.init p h ci (PyVal.vint 7)) = false) :=
  permute_bypasses_init_validation sampleSleuth (PyVal.vint 7) rfl

/-- C10: `permute` with a keyword whose name is not one of the five
instance variables raises no error: it silently records a new attribute of
that name on the copy, readable back by `getattr`, while all five real
fields stay equal to the parent's. -/
theorem permute_unknown_keyword_sets_new_attribute (s : CauseSleuth)
    (k : String) (v : PyVal)
    (h1 : k ≠ "pith") (h2 : k ≠ "hint") (h3 : k ≠ "cause_indent")
    (h4 : k ≠ "exception_label") (h5 : k ≠ "hint_attr") :
    (s.permute [(k, v)]).getattr k = some v ∧
    (s.permute [(k, v)]).pith = s.pith ∧
    (s.permute [(k, v)]).hint = s.hint ∧
    (s.permute [(k, v)]).hint_attr = s.hint_attr ∧
    (s.permute [(k, v)]).cause_indent = s.cause_indent ∧
    (s.permute [(k, v)]).exception_label = s.exception_label := by
  have hperm : s.permute [(k, v)] = s.setattr k v := rfl
  rw [hperm]
  unfold CauseSleuth.setattr CauseSleuth.getattr
  simp [h1, h2, h3, h4, h5, List.lookup]

/-- Witness for C10 at the misspelled keyword name `pithh`. -/
theorem permute_unknown_keyword_sets_new_attribute_witness :
    (sampleSleuth.permute [("pithh", PyVal.vnone)]).getattr ("pithh")
        = some PyVal.vnone ∧
    (sampleSleuth.permute [("pithh", PyVal.vnone)]).pith
        = sampleSleuth.pith ∧
    (sampleSleuth.permute [("pithh", PyVal.vnone)]).hint
        = sampleSleuth.hint ∧
    (sampleSleuth.permute [("pithh", PyVal.vnone)]).hint_attr
        = sampleSleuth.hint_attr ∧
    (sampleSleuth.permute [("pithh", PyVal.vnone)]).cause_indent
        = sampleSleuth.cause_indent ∧
    (sampleSleuth.permute [("pithh", PyVal.vnone)]).exception_label
        = sampleSleuth.exception_label :=
  permute_unknown_keyword_sets_new_attribute sampleSleuth ("pithh")
    PyVal.vnone (by decide) (by decide) (by decide) (by decide) (by decide)

theorem pyIsNone_iff (v : PyVal) : pyIsNone v = true ↔ v = PyVal.vnone := by
  cases v <;> simp [pyIsNone]

/-- C1 (amended): the hint category field equals the classification of the
current hint after construction, and `permute` carries `hint_attr` over
unchanged from the parent, so the invariant is preserved by every permute
whose keywords touch neither `hint` nor `hint_attr`. A permute that
overrides `hint` without also overriding `hint_attr` inherits the parent's
category instead of recomputing it (see the counterexample). -/
theorem hint_attr_classified_at_init_inherited_by_permute :
    (∀ p h ci el s, CauseSleuth.init p h ci el = .ok s →
        s.hint_attr = computeHintAttr s.hint) ∧
    (∀ (s : CauseSleuth) (kwargs : List (String × PyVal)),
        (∀ kv ∈ kwargs, kv.1 ≠ "hint" ∧ kv.1 ≠ "hint_attr") →
        s.hint_attr = computeHintAttr s.hint →
        (s.permute kwargs).hint_attr
          = computeHintAttr ((s.permute kwargs).hint)) := by
  constructor
  · intro p h ci el s hinit
    cases hci : isStr ci <;> cases hel : isStr el <;>
      simp [CauseSleuth.init, hci, hel] at hinit
    rw [← hinit]
  · intro s kwargs hk hinv
    rw [permute_hint_attr_of_ne s kwargs (fun kv hkv => (hk kv hkv).2),
      permute_hint_of_ne s kwargs (fun kv hkv => (hk kv hkv).1), hinv]

/-- Witness for C1 (amended): a permute that only overrides `pith`
preserves the classification invariant on a concrete context. -/
theorem hint_attr_classified_witness :
    (sampleSleuth.permute [("pith", PyVal.vint 5)]).hint_attr
      = computeHintAttr ((sampleSleuth.permute [("pith", PyVal.vint 5)]).hint) :=
  hint_attr_classified_at_init_inherited_by_permute.2 sampleSleuth
    [("pith", PyVal.vint 5)]
    (fun kv hkv => by
      rcases List.mem_singleton.mp hkv with rfl
      exact ⟨by decide, by decide⟩)
    rfl

/-- C1 counterexample: a context built by `__init__` for the plain class
`int` (category `None`) and then permuted with `hint=typing.List[int]`
keeps the stale category `None`, which differs from the classification of
its current hint (`typing.List`): `permute` inherits the category, it does
not recompute it. -/
theorem hint_attr_not_recomputed_by_permute_cex :
    CauseSleuth.init (PyVal.vint 1) (PyVal.vtype ("int")) (PyVal.vstr (""))
        (PyVal.vstr ("f")) = .ok sampleSleuth ∧
    sampleSleuth.hint_attr = computeHintAttr sampleSleuth.hint ∧
    (sampleSleuth.permute
        [("hint", PyVal.vhint ("List") [PyVal.vtype ("int")])]).hint
      = PyVal.vhint ("List") [PyVal.vtype ("int")] ∧
    (sampleSleuth.permute
        [("hint", PyVal.vhint ("List") [PyVal.vtype ("int")])]).hint_attr
      ≠ computeHintAttr
          ((sampleSleuth.permute
              [("hint", PyVal.vhint ("List") [PyVal.vtype ("int")])]).hint) := by
  refine ⟨rfl, rfl, rfl, fun hcontra => ?_⟩
  exact PyVal.noConfusion hcontra

/-- C2: `get_cause_or_none` raises if and only if either the context's
hint category is `None` while the hint is not a plain class, or the
category is not `None` but the category-to-getter table holds no getter
for it; in every other case it returns without raising. Stated for every
plain-class getter and every table, since both collaborators are external
to the source file. -/
theorem get_cause_or_none_raises_iff
    (tg : CauseSleuth → Option String)
    (tb : PyVal → Option (CauseSleuth → Option String)) (s : CauseSleuth) :
    exceptIsError (s.get_cause_or_none tg tb) = true ↔
      ((s.hint_attr = PyVal.vnone ∧ isType s.hint = false) ∨
       (s.hint_attr ≠ PyVal.vnone ∧ tb s.hint_attr = none)) := by
  unfold CauseSleuth.get_cause_or_none CauseSleuth.get_cause_or_none_run
  cases hnone : pyIsNone s.hint_attr with
  | true =>
    have heq : s.hint_attr = PyVal.vnone := (pyIsNone_iff _).mp hnone
    cases ht : isType s.hint <;> simp [exceptIsError, ht, heq]
  | false =>
    have hne : ¬(s.hint_attr = PyVal.vnone) := fun hc => by
      rw [(pyIsNone_iff s.hint_attr).mpr hc] at hnone
      cases hnone
    cases htb : tb s.hint_attr <;> simp [exceptIsError, htb, hne]

/-- C4: whenever `get_cause_or_none` does not raise, its result is exactly
the value of the single selected getter applied to the sleuth itself: the
plain-class getter when the category is `None` and the hint is a plain
class, otherwise the getter the table registers for the category — passed
through verbatim, whether it is a cause string or `None`. -/
theorem get_cause_ok_is_selected_getter
    (tg : CauseSleuth → Option String)
    (tb : PyVal → Option (CauseSleuth → Option String)) (s : CauseSleuth)
    (r : Option String) (h : s.get_cause_or_none tg tb = .ok r) :
    (pyIsNone s.hint_attr = true ∧ isType s.hint = true ∧ r = tg s) ∨
    (∃ g, pyIsNone s.hint_attr = false ∧ tb s.hint_attr = some g ∧
      r = g s) := by
  unfold CauseSleuth.get_cause_or_none CauseSleuth.get_cause_or_none_run at h
  cases hnone : pyIsNone s.hint_attr with
  | true =>
    rw [hnone] at h
    cases ht : isType s.hint <;> rw [ht] at h <;> simp at h
    exact Or.inl ⟨rfl, rfl, h.symm⟩
  | false =>
    rw [hnone] at h
    simp only [Bool.false_eq_true, if_false] at h
    cases htb : tb s.hint_attr with
    | none => rw [htb] at h; simp at h
    | some g =>
      rw [htb] at h
      simp at h
      exact Or.inr ⟨g, rfl, rfl, h.symm⟩

/-- Witness for C4: the plain-class branch on a concrete context whose
getter reports no cause. -/
theorem get_cause_ok_is_selected_getter_witness :
    (pyIsNone sampleSleuth.hint_attr = true ∧
      isType sampleSleuth.hint = true ∧
      (none : Option String) = get_cause_or_none_type sampleSleuth) ∨
    (∃ g, pyIsNone sampleSleuth.hint_attr = false ∧
      (fun (_ : PyVal) =>
        (none : Option (CauseSleuth → Option String))) sampleSleuth.hint_attr
        = some g ∧
      (none : Option String) = g sampleSleuth) :=
  get_cause_ok_is_selected_getter get_cause_or_none_type (fun _ => none)
    sampleSleuth none rfl

/-- C5: both raise paths of `get_cause_or_none` raise the one
distinguished error kind (in this embedding the single type
`PepException`, modelling `_BeartypeUtilRaisePepException`), and in both
cases the message embeds the caller-supplied error label verbatim followed
by the representation of the offending hint. -/
theorem unsupported_error_embeds_label_and_hint
    (tg : CauseSleuth → Option String)
    (tb : PyVal → Option (CauseSleuth → Option String)) (s : CauseSleuth)
    (e : PepException) (h : s.get_cause_or_none tg tb = .error e) :
    e.msg = pyStr s.exception_label ++ " type hint " ++ pyRepr s.hint ++
        " unsupported (i.e., neither PEP-compliant nor non-\"typing\" class)."
      ∨
    e.msg = pyStr s.exception_label ++ " PEP type hint " ++ pyRepr s.hint ++
        " unsupported (i.e., no \"get_cause_or_none_\"-prefixed getter " ++
        "function defined for this category of hint)." := by
  unfold CauseSleuth.get_cause_or_none CauseSleuth.get_cause_or_none_run at h
  cases hnone : pyIsNone s.hint_attr with
  | true =>
    rw [hnone] at h
    cases ht : isType s.hint <;> rw [ht] at h <;> simp at h
    rw [← h]
    exact Or.inl rfl
  | false =>
    rw [hnone] at h
    simp only [Bool.false_eq_true, if_false] at h
    cases htb : tb s.hint_attr with
    | none =>
      rw [htb] at h
      simp at h
      rw [← h]
      exact Or.inr rfl
    | some g => rw [htb] at h; simp at h

/-- A concrete context holding a hint that is neither PEP-compliant nor a
plain class (an empty list), on which `get_cause_or_none` raises. -/
def unsupportedSleuth : CauseSleuth :=
  { pith := .vint 1
    hint := .vlist []
    cause_indent := .vstr ("")
    exception_label := .vstr ("f")
    hint_attr := .vnone
    extra := [] }

/-- Witness for C5 on the concrete unsupported hint `[]`. -/
theorem unsupported_error_embeds_label_and_hint_witness :
    (unsupportedNonPepError unsupportedSleuth).msg
        = pyStr unsupportedSleuth.exception_label ++ " type hint " ++
          pyRepr unsupportedSleuth.hint ++
          " unsupported (i.e., neither PEP-compliant nor non-\"typing\" class)."
      ∨
    (unsupportedNonPepError unsupportedSleuth).msg
        = pyStr unsupportedSleuth.exception_label ++ " PEP type hint " ++
          pyRepr unsupportedSleuth.hint ++
          " unsupported (i.e., no \"get_cause_or_none_\"-prefixed getter " ++
          "function defined for this category of hint)." :=
  unsupported_error_embeds_label_and_hint get_cause_or_none_type
    (fun _ => none) unsupportedSleuth
    (unsupportedNonPepError unsupportedSleuth) rfl

theorem get_cause_or_none_run_snd
    (tg : CauseSleuth → Option String)
    (tb : PyVal → Option (CauseSleuth → Option String)) (s : CauseSleuth) :
    (s.get_cause_or_none_run tg tb).2 = s := by
  unfold CauseSleuth.get_cause_or_none_run
  split
  · split <;> rfl
  · split <;> rfl

/-- C6: in the state-passing embedding of the method (whose body only
reads `self`), one call leaves every field of the context unchanged, and a
second call on the post-call state returns a result equal to the first
call's. -/
theorem get_cause_or_none_idempotent_and_pure
    (tg : CauseSleuth → Option String)
    (tb : PyVal → Option (CauseSleuth → Option String)) (s : CauseSleuth) :
    ((s.get_cause_or_none_run tg tb).2).pith = s.pith ∧
    ((s.get_cause_or_none_run tg tb).2).hint = s.hint ∧
    ((s.get_cause_or_none_run tg tb).2).hint_attr = s.hint_attr ∧
    ((s.get_cause_or_none_run tg tb).2).cause_indent = s.cause_indent ∧
    ((s.get_cause_or_none_run tg tb).2).exception_label
      = s.exception_label ∧
    (s.get_cause_or_none_run tg tb).2 = s ∧
    (((s.get_cause_or_none_run tg tb).2).get_cause_or_none_run tg tb).1
      = (s.get_cause_or_none_run tg tb).1 := by
  have hsnd := get_cause_or_none_run_snd tg tb s
  refine ⟨by rw [hsnd], by rw [hsnd], by rw [hsnd], by rw [hsnd],
    by rw [hsnd], hsnd, by rw [hsnd]⟩

theorem hintDepth_pos (h : PyVal) : 1 ≤ hintDepth h := by
  cases h <;> simp [hintDepth]

theorem hintDepth_mem_le (a : PyVal) (args : List PyVal) (h : a ∈ args) :
    hintDepth a ≤ hintDepthList args := by
  induction args with
  | nil => cases h
  | cons b rest ih =>
    rcases List.mem_cons.mp h with rfl | hmem
    · simp only [hintDepthList]
      exact le_max_left _ _
    · simp only [hintDepthList]
      exact le_trans (ih hmem) (le_max_right _ _)

theorem scanFirst_isSome
    (recurse : CauseSleuth → Option (Except PepException (Option String)))
    (cs : List CauseSleuth)
    (h : ∀ c ∈ cs, (recurse c).isSome = true) :
    (scanFirst recurse cs).isSome = true := by
  induction cs with
  | nil => rfl
  | cons c rest ih =>
    have hc := h c (List.mem_cons_self c rest)
    unfold scanFirst
    cases hrec : recurse c with
    | none => rw [hrec] at hc; cases hc
    | some r =>
      cases r with
      | error e => simp [hrec]
      | ok o =>
        cases o with
        | some cause => simp [hrec]
        | none =>
          exact ih (fun x hx => h x (List.mem_cons_of_mem c hx))

theorem permute_hint_single (s : CauseSleuth) (m : PyVal) :
    (s.permute [("hint", m)]).hint = m := rfl

theorem permute_pith_hint_pair (s : CauseSleuth) (e eh : PyVal) :
    (s.permute [("pith", e), ("hint", eh)]).hint = eh := rfl

/-- C8: the traversal terminates on every finite hint: with fuel at least
the hint's nesting depth, the recursion — in which an explainer recurses
through a permuted child sleuth whose hint is a structurally smaller
(strictly shallower) child of the current hint — completes instead of
exhausting its fuel, so the recursion depth is bounded by the hint's
nesting depth. -/
theorem get_cause_rec_terminates (n : Nat) :
    ∀ s : CauseSleuth, hintDepth s.hint ≤ n →
      (get_cause_rec n s).isSome = true := by
  induction n with
  | zero =>
    intro s hs
    have h1 := hintDepth_pos s.hint
    omega
  | succ n ih =>
    intro s hs
    cases hh : s.hint with
    | vhint tag args =>
      rw [hh] at hs
      simp only [hintDepth] at hs
      by_cases htag : tag = "Union"
      · subst htag
        rw [get_cause_rec, hh]
        show (scanFirst (get_cause_rec n)
          (args.map (fun m => s.permute [("hint", m)]))).isSome = true
        apply scanFirst_isSome
        intro c hc
        rcases List.mem_map.mp hc with ⟨m, hm, rfl⟩
        apply ih
        rw [permute_hint_single]
        have h2 := hintDepth_mem_le m args hm
        omega
      · by_cases htag2 : tag = "List"
        · subst htag2
          cases args with
          | nil => rw [get_cause_rec, hh]; rfl
          | cons a rest =>
            cases rest with
            | cons b rest2 => rw [get_cause_rec, hh]; rfl
            | nil =>
              rw [get_cause_rec, hh]
              cases hp : s.pith with
              | vlist elems =>
                show (scanFirst (get_cause_rec n)
                  (elems.map
                    (fun e => s.permute
                      [("pith", e), ("hint", a)]))).isSome = true
                apply scanFirst_isSome
                intro c hc
                rcases List.mem_map.mp hc with ⟨e, he, rfl⟩
                apply ih
                rw [permute_pith_hint_pair]
                have h2 := hintDepth_mem_le a [a] (List.mem_cons_self a [])
                simp only [hintDepthList] at hs h2
                omega
              | vnone => rfl
              | vint m => rfl
              | vstr t => rfl
              | vtype t => rfl
              | vattr t => rfl
              | vhint t ts => rfl
        · rw [get_cause_rec, hh]
          simp [htag, htag2]
    | vnone => rw [get_cause_rec, hh]; rfl
    | vint m => rw [get_cause_rec, hh]; rfl
    | vstr t => rw [get_cause_rec, hh]; rfl
    | vtype t => rw [get_cause_rec, hh]; rfl
    | vattr t => rw [get_cause_rec, hh]; rfl
    | vlist xs => rw [get_cause_rec, hh]; rfl

/-- A concrete context for the witness: the list `[1, "x"]` checked
against `typing.List[int]`. -/
def listSleuth : CauseSleuth :=
  { pith := .vlist [PyVal.vint 1, PyVal.vstr ("x")]
    hint := .vhint ("List") [PyVal.vtype ("int")]
    cause_indent := .vstr ("")
    exception_label := .vstr ("f")
    hint_attr := .vattr ("List")
    extra := [] }

/-- Witness for C8: fuel 2 equals the nesting depth of
`typing.List[int]` and suffices for the traversal to complete. -/
theorem get_cause_rec_terminates_witness :
    hintDepth listSleuth.hint ≤ 2 ∧
      (get_cause_rec 2 listSleuth).isSome = true :=
  ⟨by decide, get_cause_rec_terminates 2 listSleuth (by decide)⟩
